import Mathlib

set_option maxRecDepth 40000

/-!
A shallow embedding of `src/searchindex.js`, a Sphinx-generated
documentation search index for the mBuild library. The file consists of a
single call `Search.setIndex({...})` whose argument is a static
JavaScript object literal. We embed that literal as a value of a small
JSON-like datatype `JSValue`, transcribed field by field in source order,
and verify structural properties of the record.
-/

/-- A JavaScript value as it appears in the object literal passed to
`Search.setIndex`: strings, (integer) numbers, arrays and objects. -/
inductive JSValue : Type where
  | str : String → JSValue
  | num : Int → JSValue
  | arr : List JSValue → JSValue
  | obj : List (String × JSValue) → JSValue

/-- Shorthand constructor for a string value. -/
def S (s : String) : JSValue := JSValue.str s

/-- Shorthand constructor for an integer value. -/
def N (n : Int) : JSValue := JSValue.num n

/-- Shorthand constructor for an array value. -/
def A (l : List JSValue) : JSValue := JSValue.arr l

/-- Shorthand constructor for an object value. -/
def O (l : List (String × JSValue)) : JSValue := JSValue.obj l

/-- The element list of an array value (empty for non-arrays). -/
def JSValue.elems : JSValue → List JSValue
  | .arr l => l
  | _ => []

/-- The key/value pairs of an object value (empty for non-objects). -/
def JSValue.entries : JSValue → List (String × JSValue)
  | .obj l => l
  | _ => []

/-- The keys of an object value, in source order. -/
def JSValue.keys (v : JSValue) : List String := v.entries.map Prod.fst

/-- Property lookup on an object value, as the search widget performs it. -/
def JSValue.lookup (v : JSValue) (k : String) : Option JSValue :=
  List.lookup k v.entries

/-- Whether a value is a string. -/
def JSValue.isStr : JSValue → Bool
  | .str _ => true
  | _ => false

/-- Whether a value is an array. -/
def JSValue.isArr : JSValue → Bool
  | .arr _ => true
  | _ => false
def docnames : JSValue :=
  A [
    S "coordinate_transforms", S "data_structures",
    S "index", S "installation",
    S "recipes", S "tutorials/tutorial_ethane",
    S "tutorials/tutorial_methane", S "tutorials/tutorial_monolayer",
    S "tutorials/tutorial_polymers", S "tutorials/tutorial_simple_LJ",
    S "tutorials/tutorials", S "writers"
  ]

def filenames : JSValue :=
  A [
    S "coordinate_transforms.rst", S "data_structures.rst",
    S "index.rst", S "installation.rst",
    S "recipes.rst", S "tutorials/tutorial_ethane.rst",
    S "tutorials/tutorial_methane.rst", S "tutorials/tutorial_monolayer.rst",
    S "tutorials/tutorial_polymers.rst", S "tutorials/tutorial_simple_LJ.rst",
    S "tutorials/tutorials.rst", S "writers.rst"
  ]

def objects : JSValue :=
  O [
    ("mbuild.compound", O [("Compound", A [N 1, N 0, N 1, S ""])]),
    ("mbuild.compound.Compound", O [("add", A [N 1, N 1, N 1, S ""]), ("add_bond", A [N 1, N 1, N 1, S ""]), ("all_ports", A [N 1, N 1, N 1, S ""]), ("ancestors", A [N 1, N 1, N 1, S ""]), ("available_ports", A [N 1, N 1, N 1, S ""]), ("bonds", A [N 1, N 1, N 1, S ""]), ("boundingbox", A [N 1, N 2, N 1, S ""]), ("center", A [N 1, N 2, N 1, S ""]), ("contains_rigid", A [N 1, N 2, N 1, S ""]), ("energy_minimization", A [N 1, N 1, N 1, S ""]), ("from_parmed", A [N 1, N 1, N 1, S ""]), ("from_trajectory", A [N 1, N 1, N 1, S ""]), ("generate_bonds", A [N 1, N 1, N 1, S ""]), ("label_rigid_bodies", A [N 1, N 1, N 1, S ""]), ("max_rigid_id", A [N 1, N 2, N 1, S ""]), ("min_periodic_distance", A [N 1, N 1, N 1, S ""]), ("n_bonds", A [N 1, N 2, N 1, S ""]), ("n_particles", A [N 1, N 2, N 1, S ""]), ("particles", A [N 1, N 1, N 1, S ""]), ("particles_by_name", A [N 1, N 1, N 1, S ""]), ("particles_in_range", A [N 1, N 1, N 1, S ""]), ("referenced_ports", A [N 1, N 1, N 1, S ""]), ("remove", A [N 1, N 1, N 1, S ""]), ("remove_bond", A [N 1, N 1, N 1, S ""]), ("rigid_particles", A [N 1, N 1, N 1, S ""]), ("root", A [N 1, N 2, N 1, S ""]), ("rotate", A [N 1, N 1, N 1, S ""]), ("save", A [N 1, N 1, N 1, S ""]), ("spin", A [N 1, N 1, N 1, S ""]), ("successors", A [N 1, N 1, N 1, S ""]), ("to_intermol", A [N 1, N 1, N 1, S ""]), ("to_parmed", A [N 1, N 1, N 1, S ""]), ("to_trajectory", A [N 1, N 1, N 1, S ""]), ("translate", A [N 1, N 1, N 1, S ""]), ("translate_to", A [N 1, N 1, N 1, S ""]), ("unlabel_rigid_bodies", A [N 1, N 1, N 1, S ""]), ("update_coordinates", A [N 1, N 1, N 1, S ""]), ("visualize", A [N 1, N 1, N 1, S ""]), ("xyz", A [N 1, N 2, N 1, S ""]), ("xyz_with_ports", A [N 1, N 2, N 1, S ""])]),
    ("mbuild.coordinate_transform", O [("force_overlap", A [N 0, N 3, N 1, S ""]), ("rotate", A [N 0, N 3, N 1, S ""]), ("spin", A [N 0, N 3, N 1, S ""]), ("translate", A [N 0, N 3, N 1, S ""]), ("translate_to", A [N 0, N 3, N 1, S ""]), ("x_axis_transform", A [N 0, N 3, N 1, S ""]), ("y_axis_transform", A [N 0, N 3, N 1, S ""]), ("z_axis_transform", A [N 0, N 3, N 1, S ""])]),
    ("mbuild.formats", O [("gsdwriter", A [N 11, N 4, N 0, S "-"]), ("hoomdxml", A [N 11, N 4, N 0, S "-"]), ("lammpsdata", A [N 11, N 4, N 0, S "-"])]),
    ("mbuild.formats.gsdwriter", O [("write_gsd", A [N 11, N 3, N 1, S ""])]),
    ("mbuild.formats.hoomdxml", O [("write_hoomdxml", A [N 11, N 3, N 1, S ""])]),
    ("mbuild.formats.lammpsdata", O [("write_lammpsdata", A [N 11, N 3, N 1, S ""])]),
    ("mbuild.lattice", O [("Lattice", A [N 4, N 0, N 1, S ""])]),
    ("mbuild.lattice.Lattice", O [("populate", A [N 4, N 1, N 1, S ""])]),
    ("mbuild.packing", O [("fill_box", A [N 4, N 3, N 1, S ""]), ("solvate", A [N 4, N 3, N 1, S ""])]),
    ("mbuild.pattern", O [("DiskPattern", A [N 4, N 0, N 1, S ""]), ("SpherePattern", A [N 4, N 0, N 1, S ""])]),
    ("mbuild.pattern.DiskPattern", O [("apply", A [N 4, N 1, N 1, S ""]), ("apply_to_compound", A [N 4, N 1, N 1, S ""]), ("scale", A [N 4, N 1, N 1, S ""])]),
    ("mbuild.pattern.SpherePattern", O [("apply", A [N 4, N 1, N 1, S ""]), ("apply_to_compound", A [N 4, N 1, N 1, S ""]), ("scale", A [N 4, N 1, N 1, S ""])]),
    ("mbuild.port", O [("Port", A [N 1, N 0, N 1, S ""])]),
    ("mbuild.port.Port", O [("add", A [N 1, N 1, N 1, S ""]), ("add_bond", A [N 1, N 1, N 1, S ""]), ("all_ports", A [N 1, N 1, N 1, S ""]), ("ancestors", A [N 1, N 1, N 1, S ""]), ("available_ports", A [N 1, N 1, N 1, S ""]), ("bonds", A [N 1, N 1, N 1, S ""]), ("boundingbox", A [N 1, N 2, N 1, S ""]), ("center", A [N 1, N 2, N 1, S ""]), ("contains_rigid", A [N 1, N 2, N 1, S ""]), ("direction", A [N 1, N 2, N 1, S ""]), ("energy_minimization", A [N 1, N 1, N 1, S ""]), ("from_parmed", A [N 1, N 1, N 1, S ""]), ("from_trajectory", A [N 1, N 1, N 1, S ""]), ("generate_bonds", A [N 1, N 1, N 1, S ""]), ("label_rigid_bodies", A [N 1, N 1, N 1, S ""]), ("max_rigid_id", A [N 1, N 2, N 1, S ""]), ("min_periodic_distance", A [N 1, N 1, N 1, S ""]), ("n_bonds", A [N 1, N 2, N 1, S ""]), ("n_particles", A [N 1, N 2, N 1, S ""]), ("particles", A [N 1, N 1, N 1, S ""]), ("particles_by_name", A [N 1, N 1, N 1, S ""]), ("particles_in_range", A [N 1, N 1, N 1, S ""]), ("referenced_ports", A [N 1, N 1, N 1, S ""]), ("remove", A [N 1, N 1, N 1, S ""]), ("remove_bond", A [N 1, N 1, N 1, S ""]), ("rigid_particles", A [N 1, N 1, N 1, S ""]), ("root", A [N 1, N 2, N 1, S ""]), ("rotate", A [N 1, N 1, N 1, S ""]), ("save", A [N 1, N 1, N 1, S ""]), ("spin", A [N 1, N 1, N 1, S ""]), ("successors", A [N 1, N 1, N 1, S ""]), ("to_intermol", A [N 1, N 1, N 1, S ""]), ("to_parmed", A [N 1, N 1, N 1, S ""]), ("to_trajectory", A [N 1, N 1, N 1, S ""]), ("translate", A [N 1, N 1, N 1, S ""]), ("translate_to", A [N 1, N 1, N 1, S ""]), ("unlabel_rigid_bodies", A [N 1, N 1, N 1, S ""]), ("update_coordinates", A [N 1, N 1, N 1, S ""]), ("visualize", A [N 1, N 1, N 1, S ""]), ("xyz", A [N 1, N 2, N 1, S ""]), ("xyz_with_ports", A [N 1, N 2, N 1, S ""])]),
    ("mbuild.recipes.monolayer", O [("Monolayer", A [N 4, N 0, N 1, S ""])]),
    ("mbuild.recipes.monolayer.Monolayer", O [("add", A [N 4, N 1, N 1, S ""]), ("add_bond", A [N 4, N 1, N 1, S ""]), ("all_ports", A [N 4, N 1, N 1, S ""]), ("ancestors", A [N 4, N 1, N 1, S ""]), ("available_ports", A [N 4, N 1, N 1, S ""]), ("bonds", A [N 4, N 1, N 1, S ""]), ("boundingbox", A [N 4, N 2, N 1, S ""]), ("center", A [N 4, N 2, N 1, S ""]), ("contains_rigid", A [N 4, N 2, N 1, S ""]), ("energy_minimization", A [N 4, N 1, N 1, S ""]), ("from_parmed", A [N 4, N 1, N 1, S ""]), ("from_trajectory", A [N 4, N 1, N 1, S ""]), ("generate_bonds", A [N 4, N 1, N 1, S ""]), ("label_rigid_bodies", A [N 4, N 1, N 1, S ""]), ("max_rigid_id", A [N 4, N 2, N 1, S ""]), ("min_periodic_distance", A [N 4, N 1, N 1, S ""]), ("n_bonds", A [N 4, N 2, N 1, S ""]), ("n_particles", A [N 4, N 2, N 1, S ""]), ("particles", A [N 4, N 1, N 1, S ""]), ("particles_by_name", A [N 4, N 1, N 1, S ""]), ("particles_in_range", A [N 4, N 1, N 1, S ""]), ("referenced_ports", A [N 4, N 1, N 1, S ""]), ("remove", A [N 4, N 1, N 1, S ""]), ("remove_bond", A [N 4, N 1, N 1, S ""]), ("rigid_particles", A [N 4, N 1, N 1, S ""]), ("root", A [N 4, N 2, N 1, S ""]), ("rotate", A [N 4, N 1, N 1, S ""]), ("save", A [N 4, N 1, N 1, S ""]), ("spin", A [N 4, N 1, N 1, S ""]), ("successors", A [N 4, N 1, N 1, S ""]), ("to_intermol", A [N 4, N 1, N 1, S ""]), ("to_parmed", A [N 4, N 1, N 1, S ""]), ("to_trajectory", A [N 4, N 1, N 1, S ""]), ("translate", A [N 4, N 1, N 1, S ""]), ("translate_to", A [N 4, N 1, N 1, S ""]), ("unlabel_rigid_bodies", A [N 4, N 1, N 1, S ""]), ("update_coordinates", A [N 4, N 1, N 1, S ""]), ("visualize", A [N 4, N 1, N 1, S ""]), ("xyz", A [N 4, N 2, N 1, S ""]), ("xyz_with_ports", A [N 4, N 2, N 1, S ""])]),
    ("mbuild.recipes.polymer", O [("Polymer", A [N 4, N 0, N 1, S ""])]),
    ("mbuild.recipes.polymer.Polymer", O [("add", A [N 4, N 1, N 1, S ""]), ("add_bond", A [N 4, N 1, N 1, S ""]), ("all_ports", A [N 4, N 1, N 1, S ""]), ("ancestors", A [N 4, N 1, N 1, S ""]), ("available_ports", A [N 4, N 1, N 1, S ""]), ("bonds", A [N 4, N 1, N 1, S ""]), ("boundingbox", A [N 4, N 2, N 1, S ""]), ("center", A [N 4, N 2, N 1, S ""]), ("contains_rigid", A [N 4, N 2, N 1, S ""]), ("energy_minimization", A [N 4, N 1, N 1, S ""]), ("from_parmed", A [N 4, N 1, N 1, S ""]), ("from_trajectory", A [N 4, N 1, N 1, S ""]), ("generate_bonds", A [N 4, N 1, N 1, S ""]), ("label_rigid_bodies", A [N 4, N 1, N 1, S ""]), ("max_rigid_id", A [N 4, N 2, N 1, S ""]), ("min_periodic_distance", A [N 4, N 1, N 1, S ""]), ("n_bonds", A [N 4, N 2, N 1, S ""]), ("n_particles", A [N 4, N 2, N 1, S ""]), ("particles", A [N 4, N 1, N 1, S ""]), ("particles_by_name", A [N 4, N 1, N 1, S ""]), ("particles_in_range", A [N 4, N 1, N 1, S ""]), ("referenced_ports", A [N 4, N 1, N 1, S ""]), ("remove", A [N 4, N 1, N 1, S ""]), ("remove_bond", A [N 4, N 1, N 1, S ""]), ("rigid_particles", A [N 4, N 1, N 1, S ""]), ("root", A [N 4, N 2, N 1, S ""]), ("rotate", A [N 4, N 1, N 1, S ""]), ("save", A [N 4, N 1, N 1, S ""]), ("spin", A [N 4, N 1, N 1, S ""]), ("successors", A [N 4, N 1, N 1, S ""]), ("to_intermol", A [N 4, N 1, N 1, S ""]), ("to_parmed", A [N 4, N 1, N 1, S ""]), ("to_trajectory", A [N 4, N 1, N 1, S ""]), ("translate", A [N 4, N 1, N 1, S ""]), ("translate_to", A [N 4, N 1, N 1, S ""]), ("unlabel_rigid_bodies", A [N 4, N 1, N 1, S ""]), ("update_coordinates", A [N 4, N 1, N 1, S ""]), ("visualize", A [N 4, N 1, N 1, S ""]), ("xyz", A [N 4, N 2, N 1, S ""]), ("xyz_with_ports", A [N 4, N 2, N 1, S ""])]),
    ("mbuild.recipes.silica_interface", O [("SilicaInterface", A [N 4, N 0, N 1, S ""])]),
    ("mbuild.recipes.silica_interface.SilicaInterface", O [("add", A [N 4, N 1, N 1, S ""]), ("add_bond", A [N 4, N 1, N 1, S ""]), ("all_ports", A [N 4, N 1, N 1, S ""]), ("ancestors", A [N 4, N 1, N 1, S ""]), ("available_ports", A [N 4, N 1, N 1, S ""]), ("bonds", A [N 4, N 1, N 1, S ""]), ("boundingbox", A [N 4, N 2, N 1, S ""]), ("center", A [N 4, N 2, N 1, S ""]), ("contains_rigid", A [N 4, N 2, N 1, S ""]), ("energy_minimization", A [N 4, N 1, N 1, S ""]), ("from_parmed", A [N 4, N 1, N 1, S ""]), ("from_trajectory", A [N 4, N 1, N 1, S ""]), ("generate_bonds", A [N 4, N 1, N 1, S ""]), ("label_rigid_bodies", A [N 4, N 1, N 1, S ""]), ("max_rigid_id", A [N 4, N 2, N 1, S ""]), ("min_periodic_distance", A [N 4, N 1, N 1, S ""]), ("n_bonds", A [N 4, N 2, N 1, S ""]), ("n_particles", A [N 4, N 2, N 1, S ""]), ("particles", A [N 4, N 1, N 1, S ""]), ("particles_by_name", A [N 4, N 1, N 1, S ""]), ("particles_in_range", A [N 4, N 1, N 1, S ""]), ("referenced_ports", A [N 4, N 1, N 1, S ""]), ("remove", A [N 4, N 1, N 1, S ""]), ("remove_bond", A [N 4, N 1, N 1, S ""]), ("rigid_particles", A [N 4, N 1, N 1, S ""]), ("root", A [N 4, N 2, N 1, S ""]), ("rotate", A [N 4, N 1, N 1, S ""]), ("save", A [N 4, N 1, N 1, S ""]), ("spin", A [N 4, N 1, N 1, S ""]), ("successors", A [N 4, N 1, N 1, S ""]), ("to_intermol", A [N 4, N 1, N 1, S ""]), ("to_parmed", A [N 4, N 1, N 1, S ""]), ("to_trajectory", A [N 4, N 1, N 1, S ""]), ("translate", A [N 4, N 1, N 1, S ""]), ("translate_to", A [N 4, N 1, N 1, S ""]), ("unlabel_rigid_bodies", A [N 4, N 1, N 1, S ""]), ("update_coordinates", A [N 4, N 1, N 1, S ""]), ("visualize", A [N 4, N 1, N 1, S ""]), ("xyz", A [N 4, N 2, N 1, S ""]), ("xyz_with_ports", A [N 4, N 2, N 1, S ""])]),
    ("mbuild.recipes.tiled_compound", O [("TiledCompound", A [N 4, N 0, N 1, S ""])]),
    ("mbuild.recipes.tiled_compound.TiledCompound", O [("add", A [N 4, N 1, N 1, S ""]), ("add_bond", A [N 4, N 1, N 1, S ""]), ("all_ports", A [N 4, N 1, N 1, S ""]), ("ancestors", A [N 4, N 1, N 1, S ""]), ("available_ports", A [N 4, N 1, N 1, S ""]), ("bonds", A [N 4, N 1, N 1, S ""]), ("boundingbox", A [N 4, N 2, N 1, S ""]), ("center", A [N 4, N 2, N 1, S ""]), ("contains_rigid", A [N 4, N 2, N 1, S ""]), ("energy_minimization", A [N 4, N 1, N 1, S ""]), ("from_parmed", A [N 4, N 1, N 1, S ""]), ("from_trajectory", A [N 4, N 1, N 1, S ""]), ("generate_bonds", A [N 4, N 1, N 1, S ""]), ("label_rigid_bodies", A [N 4, N 1, N 1, S ""]), ("max_rigid_id", A [N 4, N 2, N 1, S ""]), ("min_periodic_distance", A [N 4, N 1, N 1, S ""]), ("n_bonds", A [N 4, N 2, N 1, S ""]), ("n_particles", A [N 4, N 2, N 1, S ""]), ("particles", A [N 4, N 1, N 1, S ""]), ("particles_by_name", A [N 4, N 1, N 1, S ""]), ("particles_in_range", A [N 4, N 1, N 1, S ""]), ("referenced_ports", A [N 4, N 1, N 1, S ""]), ("remove", A [N 4, N 1, N 1, S ""]), ("remove_bond", A [N 4, N 1, N 1, S ""]), ("rigid_particles", A [N 4, N 1, N 1, S ""]), ("root", A [N 4, N 2, N 1, S ""]), ("rotate", A [N 4, N 1, N 1, S ""]), ("save", A [N 4, N 1, N 1, S ""]), ("spin", A [N 4, N 1, N 1, S ""]), ("successors", A [N 4, N 1, N 1, S ""]), ("to_intermol", A [N 4, N 1, N 1, S ""]), ("to_parmed", A [N 4, N 1, N 1, S ""]), ("to_trajectory", A [N 4, N 1, N 1, S ""]), ("translate", A [N 4, N 1, N 1, S ""]), ("translate_to", A [N 4, N 1, N 1, S ""]), ("unlabel_rigid_bodies", A [N 4, N 1, N 1, S ""]), ("update_coordinates", A [N 4, N 1, N 1, S ""]), ("visualize", A [N 4, N 1, N 1, S ""]), ("xyz", A [N 4, N 2, N 1, S ""]), ("xyz_with_ports", A [N 4, N 2, N 1, S ""])]),
    ("mbuild", O [("packing", A [N 4, N 4, N 0, S "-"]), ("pattern", A [N 4, N 4, N 0, S "-"])])
  ]

def objnames : JSValue :=
  O [
    ("0", A [S "py", S "class", S "Python class"]),
    ("1", A [S "py", S "method", S "Python method"]),
    ("2", A [S "py", S "attribute", S "Python attribute"]),
    ("3", A [S "py", S "function", S "Python function"]),
    ("4", A [S "py", S "module", S "Python module"])
  ]

def objtypes : JSValue :=
  O [
    ("0", S "py:class"), ("1", S "py:method"),
    ("2", S "py:attribute"), ("3", S "py:function"),
    ("4", S "py:module")
  ]

def terms : JSValue :=
  O [
    ("1ast_monom", N 8), ("25nm", A [N 1, N 4]),
    ("3x3x3", N 4), ("abstract", N 4),
    ("case", A [N 1, N 3, N 4, N 5, N 6, N 7]), ("class", A [N 1, N 2, N 4, N 5, N 6, N 7, N 8, N 9]),
    ("default", A [N 0, N 1, N 4, N 5, N 6]), ("export", N 5),
    ("float", A [N 0, N 1, N 4, N 11]), ("function", A [N 1, N 4, N 5, N 7, N 8, N 9, N 11]),
    ("import", A [N 1, N 4, N 5, N 6, N 7, N 8, N 9]), ("int", A [N 1, N 4, N 11]),
    ("new", A [N 0, N 1, N 4]), ("return", A [N 1, N 4, N 6]),
    ("super", A [N 5, N 6, N 7, N 8, N 9]), ("true", A [N 0, N 1, N 4, N 5, N 7, N 8]),
    ("try", N 7), ("while", A [N 3, N 4, N 5, N 9]),
    ("And", N 7), ("For", A [N 4, N 5, N 9]),
    ("IDs", A [N 1, N 4]), ("One", A [N 1, N 8]),
    ("That", A [N 1, N 2]), ("The", A [N 0, N 1, N 3, N 4, N 5, N 6, N 7, N 8, N 9, N 11]),
    ("Then", N 7), ("There", N 7),
    ("These", N 1), ("Used", N 1),
    ("Using", N 8), ("Will", A [N 1, N 4]),
    ("With", A [N 2, N 8]), ("__class__", N 1),
    ("__init__", A [N 5, N 6, N 7, N 8, N 9]), ("__name__", N 1),
    ("_check_if_contains_rigid_bodi", A [N 1, N 4]), ("_to_topolog", A [N 1, N 4]),
    ("about", A [N 1, N 2, N 4, N 9]), ("abov", A [N 1, N 4, N 5, N 6, N 8]),
    ("accept", N 4), ("accomplish", A [N 7, N 9]),
    ("accord", A [N 1, N 4]), ("accumul", N 8),
    ("actual", N 2), ("add", A [N 1, N 3, N 4, N 5, N 6, N 7, N 8, N 9]),
    ("add_bond", A [N 0, N 1, N 4, N 6]), ("added", A [N 1, N 4, N 6, N 8]),
    ("adding", A [N 5, N 9]), ("addison", N 1),
    ("addit", A [N 1, N 4, N 5, N 11]), ("addition", A [N 2, N 11]),
    ("adjust", A [N 2, N 4, N 8]), ("adsorpt", N 4),
    ("advantag", N 9), ("affin", N 0),
    ("after", N 3), ("again", A [N 2, N 9]),
    ("agre", N 4), ("alexandr", N 4),
    ("algorithm", A [N 1, N 4]), ("alia", N 1),
    ("alkan", A [N 7, N 10]), ("alkane_monolay", N 7),
    ("alkanepolym", N 8), ("alkylsilan", N 7),
    ("all", A [N 1, N 3, N 4, N 5, N 6, N 7, N 8, N 9, N 10]), ("all_port", A [N 1, N 4]),
    ("alloc", N 4), ("allow", A [N 1, N 4, N 7, N 8, N 9]),
    ("almost", N 6), ("along", A [N 1, N 4]),
    ("alreadi", A [N 1, N 4, N 8]), ("alrgorithm", N 4),
    ("alright", N 6), ("also", A [N 1, N 4, N 5, N 6, N 7, N 8, N 9, N 11]),
    ("alter", A [N 1, N 4]), ("altern", N 3),
    ("alwai", A [N 1, N 11]), ("amber", A [N 1, N 4]),
    ("amin", N 5), ("amorph", N 4),
    ("amount", A [N 5, N 8]), ("amu", N 11),
    ("anaconda", N 3), ("ancestor", A [N 1, N 4]),
    ("anchor", A [N 0, N 1, N 4, N 5, N 8]), ("angl", A [N 1, N 4, N 8, N 11]),
    ("angle_coeff", N 11), ("angle_valu", N 4),
    ("angstrom", N 11), ("ani", A [N 1, N 4, N 6, N 7, N 9, N 11]),
    ("anoth", A [N 1, N 4]), ("anyth", N 6),
    ("apart", N 8), ("append", N 6),
    ("appli", A [N 0, N 1, N 4, N 8, N 9, N 11]), ("applic", N 11),
    ("apply_pattern", N 7), ("apply_to_compound", A [N 4, N 7]),
    ("approach", N 2), ("appropri", N 8),
    ("approxim", A [N 5, N 8]), ("arbitari", N 9),
    ("arbitrari", A [N 1, N 4]), ("arg", N 0),
    ("argument", A [N 1, N 4, N 7, N 8]), ("around", A [N 1, N 4, N 8]),
    ("arrai", A [N 1, N 4, N 9]), ("arrang", A [N 2, N 4, N 5, N 7, N 9]),
    ("assembl", A [N 2, N 7]), ("assign", N 4),
    ("associ", A [N 1, N 4, N 5, N 9, N 11]), ("assum", N 11),
    ("atom", A [N 0, N 1, N 4, N 5, N 7, N 8, N 9, N 10, N 11]), ("atom_styl", N 11),
    ("attach", A [N 2, N 4, N 7]), ("attempt", A [N 1, N 4]),
    ("attribut", A [N 1, N 4, N 5, N 6]), ("autom", N 9),
    ("automat", N 5), ("available_port", A [N 1, N 4]),
    ("avogadro", A [N 2, N 5]), ("avoid", A [N 1, N 4, N 8]),
    ("awai", A [N 5, N 8]), ("axi", A [N 0, N 1, N 4, N 8, N 9]),
    ("babel", A [N 1, N 4]), ("back", N 7),
    ("backbon", A []), ("backfil", A [N 4, N 7]),
    ("backfill_port_nam", N 4), ("banck", A [N 1, N 4]),
    ("bar", N 1), ("base", A [N 1, N 2, N 3, N 4, N 9]),
    ("basi", A [N 1, N 4]), ("basic", A [N 6, N 8, N 10]),
    ("basis_dict", N 4), ("basis_dictionari", N 4),
    ("basis_vector", N 4), ("bcc", N 4),
    ("becaus", A [N 7, N 9]), ("becom", N 7),
    ("been", A [N 1, N 4]), ("befor", N 8),
    ("behavior", N 9), ("being", A [N 1, N 4]),
    ("belong", A [N 1, N 11]), ("below", A [N 1, N 4, N 6, N 8, N 9, N 11]),
    ("benzen", A [N 1, N 4]), ("best", N 7),
    ("beta", N 7), ("betacristobalit", N 7),
    ("between", A [N 0, N 1, N 4, N 8, N 9]), ("bfbfbf", N 9),
    ("bind", A [N 4, N 7]), ("bioconda", A []),
    ("bit", A [N 5, N 7]), ("block", A [N 1, N 4, N 6]),
    ("blog", N 4), ("boasn", N 4),
    ("bodi", A [N 1, N 4, N 11]), ("bond", A [N 0, N 1, N 2, N 4, N 5, N 8, N 10, N 11]),
    ("bond_coeff", N 11), ("bond_graph", A [N 1, N 4]),
    ("bondgraph", A [N 1, N 4]), ("bool", A [N 0, N 1, N 4]),
    ("boost", A [N 1, N 4]), ("both", A [N 8, N 9]),
    ("bottom", A [N 1, N 4, N 6]), ("bound", A [N 1, N 4]),
    ("boundari", N 4), ("boundingbox", A [N 1, N 4]),
    ("box", A [N 1, N 2, N 4, N 8]), ("boyl", A [N 1, N 4]),
    ("bravai", N 4), ("bridg", N 4),
    ("brush_lay", N 2), ("brushlay", N 2),
    ("buffer", A [N 1, N 4]), ("build", A [N 1, N 2, N 4, N 5, N 6, N 7, N 9, N 10]),
    ("builder", N 2), ("built", A [N 1, N 4]),
    ("bulk", N 4), ("bulk_silica", N 4),
    ("cach", A [N 1, N 4]), ("calcul", A [N 1, N 4]),
    ("caldwel", A [N 1, N 4]), ("can", A [N 1, N 2, N 3, N 4, N 5, N 6, N 7, N 8, N 9, N 10, N 11]),
    ("cap", N 7), ("cap_end", N 7),
    ("carbon", A [N 1, N 4, N 5, N 6, N 8]), ("cartesian", A [N 1, N 4]),
    ("cartestian", N 1), ("carv", N 4),
    ("casewit", A [N 1, N 4]), ("cell", N 4),
    ("center", A [N 1, N 4, N 5, N 9]), ("central", N 7),
    ("cesium", N 4), ("ch2", A [N 7, N 8]),
    ("ch3", A [N 5, N 7, N 8]), ("ch_2", N 8),
    ("ch_3", N 8), ("chain", A [N 1, N 4, N 7, N 8]),
    ("chain_length", A [N 7, N 8]), ("chain_lenth", N 2),
    ("chain_typ", A []), ("chang", A [N 1, N 4, N 8]),
    ("channel", N 3), ("charact", A [N 4, N 6]),
    ("charg", A [N 1, N 4, N 11]), ("check", A [N 5, N 7]),
    ("chem", A [N 1, N 4]), ("chemic", A [N 1, N 2, N 4]),
    ("cheminf", A [N 1, N 4]), ("chemistri", N 4),
    ("children", A [N 1, N 4]), ("chlorin", N 4),
    ("choic", A [N 1, N 4]), ("cholesterol", N 4),
    ("cholesterol_lattic", N 4), ("cholesterol_unit", N 4),
    ("chosen", N 5), ("chri", N 4),
    ("circl", N 4), ("cite", A [N 1, N 4]),
    ("ckdtree", A [N 1, N 4]), ("clarifi", N 1),
    ("clean", N 4), ("cleanli", N 9),
    ("clearli", N 6), ("cleav", N 4),
    ("clone", A [N 3, N 8, N 9]), ("closer", N 8),
    ("closest", N 7), ("code", A [N 2, N 4, N 9]),
    ("coeff", N 11), ("coeffici", N 11),
    ("colbert", N 4), ("collect", A [N 1, N 7, N 9]),
    ("colloid", N 4), ("color", N 9),
    ("colwel", A [N 1, N 4]), ("com", A [N 1, N 3, N 4, N 9, N 11]),
    ("combin", N 7), ("command", A [N 7, N 8, N 9]),
    ("complet", N 4), ("complex", A [N 2, N 5, N 10]),
    ("compon", A [N 1, N 2, N 4, N 5, N 7, N 9]), ("composit", N 1),
    ("compound", A [N 0, N 5, N 7, N 8, N 9, N 10, N 11]), ("compound_dict", N 4),
    ("compound_port", N 4), ("comput", A [N 0, N 1, N 4]),
    ("concept", A [N 5, N 7]), ("condarc", N 3),
    ("condit", N 4), ("config", N 3),
    ("configur", A [N 8, N 9]), ("conform", A [N 1, N 4, N 8]),
    ("conjug", A [N 1, N 4]), ("connect", A [N 1, N 2, N 4, N 5, N 6, N 8]),
    ("conserv", A [N 1, N 4]), ("consid", A [N 1, N 4, N 9]),
    ("consist", N 7), ("constant", N 11),
    ("construct", A [N 2, N 6, N 8]), ("contain", A [N 1, N 4, N 5, N 6, N 7]),
    ("contains_rigid", A [N 1, N 4]), ("continuum", N 3),
    ("control", A [N 1, N 4, N 8]), ("conveni", N 1),
    ("convent", A [N 1, N 4, N 7]), ("convers", A [N 4, N 11]),
    ("convert", A [N 1, N 4]), ("coordin", A [N 1, N 4, N 8, N 9, N 10, N 11]),
    ("coordinate_transform", N 0), ("coords_onli", A [N 1, N 4]),
    ("copi", A [N 1, N 4, N 7, N 8, N 9]), ("copper", N 4),
    ("copper_cel", N 4), ("copper_dict", N 4),
    ("copper_lattic", N 4), ("correctli", N 4),
    ("correspond", A [N 1, N 4, N 7, N 9, N 11]), ("could", A [N 6, N 8]),
    ("cover", A [N 5, N 7]), ("creat", A [N 0, N 1, N 2, N 4, N 5, N 6, N 7, N 8, N 9]),
    ("creation", N 8), ("cristobalit", N 7),
    ("crystal", N 4), ("crystallin", A [N 4, N 7]),
    ("crystallographi", N 4), ("cscl", N 4),
    ("cscl_compound", N 4), ("cscl_dict", N 4),
    ("cscl_lattic", N 4), ("cube_proto", N 9),
    ("cubelj", N 9), ("cubic", A [N 4, N 9]),
    ("cumbersom", N 5), ("curl", N 8),
    ("current", A [N 1, N 8, N 11]), ("current_monom", N 8),
    ("current_polym", N 8), ("dangl", N 7),
    ("dash", N 2), ("data", N 4),
    ("data_format", N 11), ("deepcopi", N 1),
    ("def", A [N 5, N 6, N 7, N 8, N 9]), ("defin", A [N 1, N 2, N 4, N 6, N 8, N 9]),
    ("deg", N 8), ("degre", A []),
    ("delet", A [N 1, N 4]), ("delta", N 8),
    ("demonstr", N 8), ("densiti", N 4),
    ("depend", N 3), ("der", A [N 1, N 4]),
    ("descent", A [N 1, N 4]), ("describ", A [N 1, N 2, N 4]),
    ("descript", A [N 1, N 4, N 6, N 11]), ("design", A [N 1, N 2, N 4, N 6, N 8]),
    ("desir", N 9), ("detail", A [N 1, N 4]),
    ("determin", A [N 1, N 4]), ("dev", A [N 1, N 4]),
    ("develop", A [N 1, N 4]), ("devert", N 4),
    ("deviat", N 8), ("dictionari", A [N 1, N 4]),
    ("differ", A [N 1, N 2, N 7, N 8, N 9]), ("dihedr", N 11),
    ("dihedral_coeff", N 11), ("dimens", N 4),
    ("direct", A [N 1, N 4, N 5, N 7]), ("directli", N 1),
    ("directori", N 3), ("discrete_bodi", A [N 1, N 4]),
    ("discuss", N 4), ("disk", A [N 4, N 8, N 9]),
    ("disklj", N 9), ("diskpattern", A [N 4, N 8, N 9]),
    ("displai", N 4), ("distanc", A [N 1, N 4, N 5, N 6, N 7, N 8, N 9, N 11]),
    ("distinct", A [N 1, N 4]), ("distinct_bodi", A [N 1, N 4]),
    ("distribut", A [N 2, N 3, N 4]), ("dmax", A [N 1, N 4]),
    ("dmin", A [N 1, N 4]), ("doc", A [N 1, N 4, N 11]),
    ("document", A [N 1, N 4]), ("doe", A [N 1, N 4, N 8]),
    ("don", N 2), ("down", A [N 1, N 2, N 4, N 7, N 8]),
    ("download", A [N 5, N 6, N 7, N 8, N 9]), ("draw", N 5),
    ("drawn", N 2), ("dtype", A [N 0, N 1, N 4]),
    ("dufrech", N 4), ("dummi", N 4),
    ("dump", N 9), ("dynam", A [N 1, N 4]),
    ("each", A [N 1, N 2, N 4, N 5, N 8, N 9, N 11]), ("easier", A [N 3, N 7]),
    ("easiest", N 5), ("easili", A [N 1, N 8, N 9]),
    ("edg", A [N 1, N 4]), ("edges_it", A [N 1, N 4]),
    ("effect", N 7), ("effici", N 9),
    ("either", A [N 1, N 4, N 5]), ("electroosmosi", N 4),
    ("electrostat", A [N 1, N 4]), ("element", A [N 1, N 11]),
    ("elimin", N 2), ("elsewher", N 2),
    ("empir", A [N 1, N 4]), ("end", A [N 6, N 8]),
    ("energi", A [N 1, N 4, N 8, N 11]), ("energy_minim", A [N 1, N 4]),
    ("enforc", N 7), ("entir", N 4),
    ("entri", N 4), ("enumer", N 1),
    ("epsilon", N 11), ("equilibrium", A [N 1, N 4, N 8]),
    ("equival", N 1), ("erich", N 1),
    ("etc", A [N 7, N 9]), ("ethan", N 10),
    ("even", N 2), ("evenli", A [N 4, N 7]),
    ("ever", N 7), ("everi", A [N 1, N 4, N 5, N 7]),
    ("exampl", A [N 1, N 4, N 5, N 6, N 7, N 8, N 9, N 10]), ("exclud", A [N 4, N 8]),
    ("exist", A [N 1, N 4, N 8, N 9]), ("expand", N 4),
    ("expanded_cel", N 4), ("expect", A [N 4, N 5, N 6, N 7, N 9]),
    ("experiment", A [N 1, N 4]), ("explicitli", A [N 2, N 6, N 8]),
    ("expos", N 2), ("extens", A [N 1, N 4]),
    ("extract", A [N 1, N 4]), ("face", A [N 1, N 4, N 7]),
    ("facilit", N 9), ("fact", A [N 1, N 8]),
    ("factor", A [N 1, N 4]), ("fals", A [N 1, N 4, N 7]),
    ("famili", N 2), ("familiar", N 8),
    ("fanci", N 6), ("farthest", N 5),
    ("fcc", N 4), ("featur", N 11),
    ("few", N 2), ("fewer", N 4),
    ("field", A [N 1, N 4, N 11]), ("figur", N 7),
    ("file", A [N 1, N 2, N 4, N 6, N 8, N 9, N 10]), ("filenam", A [N 1, N 4, N 11]),
    ("filesystem", A [N 1, N 4]), ("fill", A [N 1, N 4, N 8]),
    ("fill_box", A [N 1, N 4, N 8]), ("find", A [N 1, N 4, N 10]),
    ("finish", N 6), ("first", A [N 1, N 4, N 5, N 6, N 7, N 8, N 9]),
    ("fix", N 8), ("flatten", A [N 1, N 4]),
    ("flexibl", N 7), ("flip", A []),
    ("focus", N 9), ("follow", A [N 1, N 3, N 4, N 11]),
    ("foo", N 1), ("forc", A [N 1, N 4, N 5, N 11]),
    ("force_overlap", A [N 0, N 5, N 7, N 8]), ("force_overwrit", A []),
    ("forcefield", A [N 1, N 4]), ("forcefield_fil", A [N 1, N 4]),
    ("forcefield_nam", A [N 1, N 4]), ("form", A [N 1, N 4, N 5]),
    ("format", A [N 1, N 4, N 9]), ("found", A [N 1, N 4, N 11]),
    ("four", A [N 1, N 5]), ("foyer", A [N 1, N 4, N 11]),
    ("fraction", N 4), ("frame", A [N 1, N 4]),
    ("frequenc", A [N 1, N 4]), ("from", A [N 1, N 2, N 4, N 6, N 7, N 8, N 9, N 10, N 11]),
    ("from_parm", A [N 1, N 4]), ("from_posit", A [N 0, N 5, N 8]),
    ("from_trajectori", A [N 1, N 4]), ("front", N 7),
    ("full", A [N 1, N 4, N 11]), ("fulli", A [N 4, N 7]),
    ("fun", N 5), ("further", A [N 1, N 2, N 4]),
    ("gaff", A [N 1, N 4]), ("gamma", N 1),
    ("gave", N 6), ("gener", A [N 1, N 2, N 4, N 6, N 8, N 9]),
    ("generate_bond", A [N 1, N 4]), ("geometri", A [N 1, N 4]),
    ("get", A [N 3, N 7, N 9]), ("get_fn", A [N 1, N 4]),
    ("ghemic", A [N 1, N 4]), ("ghost", A [N 1, N 5]),
    ("gilmer", N 4), ("git", N 3),
    ("github", A [N 1, N 3, N 4, N 11]), ("given", A [N 1, N 4, N 6, N 8, N 9]),
    ("glotzer", A []), ("goddard", A [N 1, N 4]),
    ("going", N 6), ("golden", N 4),
    ("got", N 6), ("gov", N 11),
    ("gradient", A [N 1, N 4]), ("graph", N 1),
    ("grid2dpattern", A [N 7, N 9]), ("grid3dpattern", A [N 8, N 9]),
    ("grid", A [N 7, N 9]), ("gro", A [N 1, N 4, N 11]),
    ("group", A [N 5, N 7, N 8]), ("gsd", A [N 1, N 4]),
    ("gsdwrite", A [N 1, N 4]), ("gsdwriter", N 11),
    ("guest", A [N 4, N 7]), ("guest_port_nam", N 4),
    ("half", A [N 5, N 8]), ("halgren", A [N 1, N 4]),
    ("hand", A [N 2, N 4, N 5]), ("hard", N 2),
    ("harmon", N 11), ("hartkamp", N 4),
    ("has", A [N 1, N 4]), ("hassinen", A [N 1, N 4]),
    ("have", A [N 1, N 2, N 4, N 5, N 6, N 7]), ("header", N 11),
    ("helm", N 1), ("help", A [N 1, N 4, N 6]),
    ("here", A [N 1, N 4, N 7, N 8]), ("hex", N 9),
    ("hexangon", N 4), ("hierach", N 9),
    ("hierarch", A [N 2, N 9]), ("hierarchi", A [N 1, N 2, N 4, N 6, N 10]),
    ("hoist", N 7), ("hold", N 8),
    ("hood", N 6), ("hoomd", A [N 1, N 4]),
    ("hoomdxml", A [N 1, N 4, N 11]), ("host", A [N 4, N 7]),
    ("how", A [N 4, N 7]), ("howev", A [N 1, N 5, N 6, N 11]),
    ("html", A [N 1, N 4, N 11]), ("http", A [N 1, N 3, N 4, N 9, N 11]),
    ("hub", A [N 1, N 3, N 4, N 11]), ("hutchison", A [N 1, N 4]),
    ("hydrogen", A [N 5, N 6, N 7, N 8]), ("ident", A [N 5, N 9]),
    ("identifi", N 7), ("idiomat", N 4),
    ("iii", A [N 1, N 4]), ("illustr", A [N 1, N 7]),
    ("imag", A [N 1, N 4]), ("imodel", A []),
    ("implement", A [N 1, N 4]), ("includ", A [N 1, N 4, N 8, N 11]),
    ("include_port", A [N 1, N 4]), ("independ", A [N 1, N 2, N 4]),
    ("index", A [N 1, N 4, N 6, N 11]), ("indic", A [N 5, N 6, N 11]),
    ("indirectli", N 1), ("individu", N 9),
    ("info", N 4), ("inform", A [N 1, N 4, N 5, N 11]),
    ("inherit", A [N 1, N 4, N 6]), ("inherit_period", A [N 1, N 4]),
    ("init", N 8), ("initi", A [N 6, N 10]),
    ("input", A [N 4, N 11]), ("instal", A [N 1, N 4, N 11]),
    ("instanc", A [N 1, N 4, N 8]), ("instanti", A [N 1, N 8, N 9]),
    ("instead", A [N 1, N 4, N 8, N 9]), ("integ", A [N 1, N 11]),
    ("intend", A [N 1, N 4]), ("interact", A [N 1, N 4, N 5, N 6, N 7, N 8, N 9]),
    ("interest", N 4), ("interfac", N 8),
    ("intermol", A [N 1, N 4]), ("intermol_system", A [N 1, N 4]),
    ("intermolecular", A [N 1, N 4]), ("intern", A [N 1, N 4, N 9, N 11]),
    ("interplanar", N 4), ("introduc", N 5),
    ("ion", N 4), ("ipyext", A []),
    ("ipynb", A [N 5, N 6, N 7, N 8, N 9]), ("ipython", A [N 5, N 6, N 7, N 8, N 9]),
    ("irregular", N 7), ("isbn", N 1),
    ("isotrop", N 4), ("iter", A [N 1, N 4]),
    ("its", A [N 1, N 4, N 5, N 6]), ("itself", N 8),
    ("jame", A [N 1, N 4]), ("janschulz", A []),
    ("john", N 1), ("johnson", N 1),
    ("jone", N 9), ("judgement", N 7),
    ("juli", N 4), ("jupyt", A [N 1, N 4]),
    ("just", A [N 2, N 5, N 6, N 7, N 8]), ("justin", N 4),
    ("kcal", N 11), ("keep", N 2),
    ("kei", N 4), ("kind", N 7),
    ("know", A [N 1, N 8]), ("kollman", A [N 1, N 4]),
    ("kwarg", A [N 0, N 1, N 4]), ("label", A [N 1, N 4, N 5, N 6, N 7, N 8, N 11]),
    ("label_rigid_bodi", A [N 1, N 4]), ("lammp", A [N 1, N 4]),
    ("lammpsdata", A [N 1, N 4, N 11]), ("larg", A [N 8, N 9]),
    ("larger", N 9), ("last", A [N 1, N 4, N 5]),
    ("last_monom", N 8), ("last_monon", N 8),
    ("lastli", N 7), ("later", A [N 1, N 5, N 7]),
    ("latest", A [N 1, N 4]), ("lattic", N 1),
    ("lattice_spac", N 4), ("lattice_vector", N 4),
    ("layer", N 4), ("leaf", N 1),
    ("leav", N 7), ("left", N 7),
    ("length", A [N 1, N 4, N 5, N 8, N 11]), ("lennard", N 9),
    ("let", A [N 5, N 6, N 7]), ("level", N 7),
    ("lib", N 7), ("librari", A [N 2, N 7]),
    ("licens", N 2), ("lie", N 9),
    ("lies", N 0), ("life", N 3),
    ("like", A [N 1, N 3, N 4, N 5, N 7]), ("limit", A [N 1, N 4]),
    ("line", N 2), ("linear", N 8),
    ("link", N 4), ("list", A [N 1, N 4, N 6, N 11]),
    ("lj_cube", N 9), ("lj_particl", N 9),
    ("lj_particle1", N 9), ("lj_particle2", N 9),
    ("lj_particle3", N 9), ("lj_particle4", N 9),
    ("lj_particle5", N 9), ("lj_particle6", N 9),
    ("lj_particle7", N 9), ("lj_particle8", N 9),
    ("lj_proto", N 9), ("lj_sphere", N 9),
    ("lmp", A [N 1, N 4]), ("load", A [N 1, N 4, N 5]),
    ("locat", A [N 1, N 4, N 8, N 9]), ("longer", A []),
    ("look", A [N 1, N 4, N 5, N 6]), ("loop", A [N 4, N 8, N 9]),
    ("mai", A [N 1, N 2, N 4, N 7, N 8, N 11]), ("mail", N 4),
    ("maintain", A [N 1, N 9]), ("make", A [N 3, N 5, N 8]),
    ("manag", N 3), ("mani", A [N 4, N 8]),
    ("manual", A [N 2, N 5, N 11]), ("map", A [N 0, N 1]),
    ("marmakoid", N 4), ("mass", A [N 1, N 4, N 9, N 11]),
    ("master", A [N 1, N 4]), ("match", A [N 1, N 4]),
    ("max_particl", A [N 1, N 4]), ("max_rigid_id", A [N 1, N 4]),
    ("maximum", A [N 1, N 4, N 8]), ("mbuild", A [N 0, N 1, N 3, N 4, N 5, N 6, N 7, N 8, N 9, N 10, N 11]),
    ("mdtraj", A [N 1, N 3, N 4, N 9]), ("mean", N 1),
    ("mechan", A [N 1, N 4]), ("merck", A [N 1, N 4]),
    ("mere", N 1), ("methan", A [N 5, N 8, N 10]),
    ("method", A [N 1, N 4, N 6]), ("methyl1", N 5),
    ("methyl2", N 5), ("methyl", N 5),
    ("methyl_1", N 5), ("methyl_2", N 5),
    ("migrat", N 4), ("min_periodic_dist", A [N 1, N 4]),
    ("minim", A [N 1, N 2, N 4, N 8]), ("minimum", A [N 1, N 4]),
    ("mmff94", A [N 1, N 4]), ("mmff", A [N 1, N 4]),
    ("model", A [N 1, N 4]), ("moieti", N 7),
    ("mol2", A [N 1, N 4, N 5, N 6, N 7, N 9, N 11]), ("mol", N 11),
    ("molecul", A [N 1, N 2, N 4, N 5, N 9]), ("molecular", A [N 1, N 2, N 4, N 5]),
    ("molecule_typ", A [N 1, N 4]), ("monolay", N 10),
    ("monolj", N 9), ("monom", A [N 4, N 5, N 7, N 8]),
    ("monomer_proto", N 8), ("month", A [N 1, N 4]),
    ("more", A [N 1, N 4, N 5, N 7, N 8, N 9, N 11]), ("morlei", A [N 1, N 4]),
    ("mosdef", A [N 1, N 3, N 4, N 11]), ("move", A [N 0, N 5, N 8, N 9]),
    ("move_thi", A [N 0, N 5, N 8]), ("multi", N 4),
    ("multipl", N 7), ("must", A [N 1, N 4, N 9, N 11]),
    ("n_bond", A [N 1, N 4]), ("n_compound", A [N 1, N 4, N 8]),
    ("n_particl", A [N 1, N 4]), ("n_solvent", N 4),
    ("n_tile", A [N 4, N 7]), ("nachbar", A [N 1, N 4]),
    ("name", A [N 1, N 4, N 6, N 8, N 9, N 11]), ("name_a", A [N 1, N 4]),
    ("name_b", A [N 1, N 4]), ("nanomet", A [N 5, N 6, N 7, N 9]),
    ("natur", N 9), ("nbsp", A [N 5, N 6, N 7, N 8, N 9]),
    ("ndarrai", A [N 0, N 1, N 4]), ("nearest", A [N 1, N 4]),
    ("necessarili", A [N 1, N 4]), ("need", A [N 1, N 2, N 4, N 5, N 7, N 8, N 9]),
    ("neighbor", A [N 1, N 4]), ("nest", N 4),
    ("never", A [N 5, N 6]), ("new_child", A [N 1, N 4]),
    ("new_origin", N 0), ("next", A [N 1, N 4, N 6, N 7]),
    ("nglview", A [N 1, N 4]), ("nice", N 3),
    ("non", N 1), ("nonbond", N 11),
    ("none", A [N 0, N 1, N 4, N 11]), ("normal", A [N 1, N 4, N 8]),
    ("note", A [N 1, N 4, N 5, N 6, N 7, N 8, N 9, N 11]), ("notebook", A [N 1, N 4, N 5, N 6, N 7, N 8, N 9]),
    ("notic", N 5), ("now", A [N 2, N 4, N 5, N 6, N 7, N 8]),
    ("number", A [N 1, N 4, N 7, N 11]), ("numer", N 3),
    ("numpi", A [N 4, N 8, N 9]), ("object", A [N 1, N 4, N 6, N 11]),
    ("objs_to_remov", A [N 1, N 4]), ("occupi", N 1),
    ("off", A [N 1, N 4]), ("omnia", N 3),
    ("onc", N 4), ("one", A [N 1, N 4, N 5, N 7, N 8, N 9]),
    ("onli", A [N 1, N 4, N 5, N 8, N 9, N 11]), ("onto", N 7),
    ("open", A [N 1, N 4]), ("openbabel", A [N 1, N 4]),
    ("oper", A [N 1, N 9]), ("opl", N 11),
    ("oplsaa", A [N 1, N 4]), ("opposit", A [N 1, N 5]),
    ("optim", A [N 1, N 4]), ("option", A [N 0, N 1, N 4, N 6, N 7, N 11]),
    ("optionl", A [N 1, N 4]), ("order", A [N 1, N 3, N 4, N 5]),
    ("ordereddict", N 1), ("orderedset", N 1),
    ("org", A [N 1, N 4, N 9]), ("orient", A [N 1, N 2, N 4, N 7, N 8]),
    ("origin", A [N 0, N 4, N 5, N 9]), ("orthorhomb", N 4),
    ("other", A [N 1, N 4, N 5, N 6, N 7, N 8, N 9]), ("our", A [N 5, N 6, N 7]),
    ("out", A [N 4, N 7]), ("output", A [N 1, N 4, N 5, N 7, N 9, N 11]),
    ("outsid", N 1), ("over", A [N 1, N 4, N 9]),
    ("overlap", A [N 1, N 4, N 5, N 8]), ("overview", A [N 1, N 4]),
    ("overwrit", A [N 1, N 4, N 5, N 7]), ("oxygen", N 4),
    ("packag", A [N 1, N 3, N 4, N 5, N 11]), ("packmol", A [N 4, N 8]),
    ("pair", A [N 1, N 4, N 11]), ("pair_coeff", N 11),
    ("paramet", A [N 0, N 1, N 2, N 4, N 11]), ("parameter", A [N 1, N 4]),
    ("parent", A [N 1, N 5]), ("parm", A [N 1, N 4, N 11]),
    ("pars", A [N 1, N 4]), ("part", A [N 1, N 2, N 4, N 5, N 6, N 11]),
    ("particl", A [N 1, N 4, N 5, N 6, N 8, N 10, N 11]), ("particle_arrai", A [N 1, N 4]),
    ("particle_kdtre", A [N 1, N 4]), ("particle_pair", A [N 1, N 4]),
    ("particles_by_nam", A [N 1, N 4]), ("particles_in_rang", A [N 1, N 4]),
    ("particular", N 3), ("particularli", N 8),
    ("pass", A [N 4, N 9, N 11]), ("path", A [N 1, N 4, N 11]),
    ("pattern", A [N 1, N 2, N 8, N 9, N 10]), ("pattern_disk", A [N 8, N 9]),
    ("pattern_spher", N 9), ("pdb", A [N 4, N 5, N 7, N 8, N 11]),
    ("perakyla", A [N 1, N 4]), ("perfectli", N 5),
    ("perform", A [N 1, N 4, N 8, N 9, N 11]), ("period", A [N 1, N 4]),
    ("periodic_kdtre", A [N 1, N 4]), ("periodicckdtre", A [N 1, N 4]),
    ("perioidicckdtre", A [N 1, N 4]), ("perturb", N 8),
    ("phy", N 4), ("piec", N 2),
    ("pip", N 3), ("pipermail", N 4),
    ("place", A [N 0, N 1, N 4, N 5, N 6, N 7, N 9]), ("plai", N 1),
    ("planar", N 4), ("plane", A [N 0, N 8]),
    ("pleas", A [N 1, N 4]), ("plugin", N 11),
    ("pmd", A [N 1, N 4]), ("point", A [N 0, N 1, N 4, N 5, N 7, N 8, N 10]),
    ("point_on_x_axi", N 0), ("point_on_xy_plan", N 0),
    ("point_on_y_axi", N 0), ("point_on_z_axi", N 0),
    ("point_on_zx_plan", N 0), ("polym", A [N 7, N 8]),
    ("polymer", N 8), ("poorli", A [N 1, N 4]),
    ("popul", N 4), ("porou", N 4),
    ("port", A [N 0, N 2, N 4, N 7, N 8, N 10]), ("port_label", A [N 4, N 8]),
    ("port_particl", N 1), ("portion", A [N 1, N 2, N 4]),
    ("pos", A [N 1, N 4, N 5, N 6, N 8, N 9]), ("posit", A [N 0, N 1, N 4, N 6, N 9, N 11]),
    ("possibl", A [N 1, N 4]), ("pre", N 3),
    ("prebuilt", N 8), ("preexist", A [N 1, N 4]),
    ("prefix", A [N 1, N 4, N 6]), ("present", A [N 1, N 4]),
    ("prevent", N 5), ("previou", N 8),
    ("primari", A [N 1, N 6]), ("primarili", A [N 1, N 4]),
    ("primit", N 1), ("print", N 4),
    ("prior", N 8), ("privat", A [N 1, N 4]),
    ("probabl", N 5), ("problem", A [N 5, N 8]),
    ("process", N 9), ("produc", N 9),
    ("protein", A [N 1, N 4]), ("proto", N 4),
    ("prototyp", N 9), ("provid", A [N 1, N 4, N 8, N 9]),
    ("proxim", N 1), ("pure", N 6),
    ("purpos", N 8), ("put", N 8),
    ("pytest", N 3), ("python", A [N 2, N 3, N 4, N 5]),
    ("quot", A [N 5, N 7]), ("r12", N 1),
    ("r13", N 1), ("r14", N 1),
    ("r15", N 1), ("r16", N 1),
    ("r17", N 1), ("r18", N 1),
    ("r19", N 1), ("r23", N 4),
    ("r24", N 4), ("r25", N 4),
    ("r26", N 4), ("r27", N 4),
    ("r28", N 4), ("r29", N 4),
    ("r30", N 4), ("r34", N 4),
    ("r35", N 4), ("r36", N 4),
    ("r37", N 4), ("r38", N 4),
    ("r39", N 4), ("r40", N 4),
    ("r41", N 4), ("r45", N 4),
    ("r46", N 4), ("r47", N 4),
    ("r48", N 4), ("r49", N 4),
    ("r50", N 4), ("r51", N 4),
    ("r52", N 4), ("r56", N 4),
    ("r57", N 4), ("r58", N 4),
    ("r59", N 4), ("r60", N 4),
    ("r61", N 4), ("r62", N 4),
    ("r63", N 4), ("r64", N 4),
    ("r65", N 4), ("radian", A [N 1, N 4, N 8, N 11]),
    ("radiu", N 9), ("ralph", N 1),
    ("random2dpattern", A [N 2, N 4]), ("random", A [N 2, N 8, N 9]),
    ("rang", A [N 1, N 4, N 8, N 9]), ("rapp", A [N 1, N 4]),
    ("rather", A [N 7, N 8, N 9]), ("ratio", N 4),
    ("reactiv", N 4), ("read", A [N 1, N 4, N 10, N 11]),
    ("readthedoc", A [N 1, N 4]), ("readwrit", N 11),
    ("real", N 11), ("realist", N 8),
    ("recal", N 8), ("recip", N 8),
    ("recommend", N 3), ("recurs", A [N 1, N 4]),
    ("reduc", A [N 1, N 4, N 11]), ("ref_dist", A [N 1, N 4, N 11]),
    ("ref_energi", A [N 1, N 4, N 11]), ("ref_mass", A [N 1, N 4, N 11]),
    ("refer", A [N 1, N 4, N 6, N 7, N 11]), ("referenc", A [N 1, N 4, N 6]),
    ("referenced_port", A [N 1, N 4]), ("referr", N 1),
    ("regular", A [N 7, N 9]), ("rel", N 7),
    ("relationship", N 9), ("releas", N 1),
    ("remain", A [N 1, N 4]), ("remov", A [N 1, N 4]),
    ("remove_bond", A [N 1, N 4]), ("repeat", A [N 7, N 8]),
    ("repetit", N 4), ("replac", A [N 1, N 4]),
    ("replic", A [N 4, N 7, N 9]), ("repr", N 4),
    ("repres", N 4), ("requir", A [N 3, N 4, N 11]),
    ("reset", A [N 1, N 4]), ("reset_rigid_id", A [N 1, N 4]),
    ("resid", A [N 1, N 4]), ("residu", A [N 1, N 4]),
    ("residue_typ", A []), ("respect", A [N 0, N 1, N 4, N 5]),
    ("rest", A [N 2, N 11]), ("result", A [N 4, N 8]),
    ("reus", N 5), ("reusabl", A [N 1, N 2, N 5]),
    ("richard", N 1), ("right", A [N 4, N 5, N 7]),
    ("rigid", A [N 1, N 4, N 11]), ("rigid_bodi", N 11),
    ("rigid_id", A [N 1, N 4]), ("rigid_particl", A [N 1, N 4]),
    ("rnd", N 9), ("robust", N 8),
    ("role", N 1), ("root", A [N 1, N 4]),
    ("rotat", A [N 0, N 1, N 4, N 5, N 8, N 9]), ("rotate_around_i", A []),
    ("rotate_around_x", A []), ("rotate_around_z", A []),
    ("roughli", N 7), ("routin", N 8),
    ("rule", A [N 1, N 4]), ("run", A [N 3, N 5, N 6, N 7, N 8, N 9]),
    ("same", A [N 1, N 4, N 5, N 6, N 7, N 8, N 9]), ("sandia", N 11),
    ("save", A [N 1, N 4, N 5, N 6, N 7, N 9, N 11]), ("save_gromac", A []),
    ("save_gsd", A []), ("save_hoomdxml", A []),
    ("save_lammpsdata", A []), ("scalar", N 4),
    ("scale", A [N 1, N 4, N 8, N 9]), ("scenario", N 5),
    ("scheme", N 8), ("scientif", N 3),
    ("scipi", A [N 1, N 4]), ("scope", A [N 1, N 4]),
    ("script", A [N 8, N 11]), ("seamlessli", N 2),
    ("search", N 1), ("second", A [N 1, N 4, N 5]),
    ("section", N 11), ("see", A [N 1, N 2, N 4, N 6, N 9, N 11]),
    ("seed", A [N 4, N 9]), ("self", A [N 1, N 4, N 5, N 6, N 7, N 8, N 9]),
    ("semant", N 6), ("semi", A [N 1, N 4]),
    ("separ", A [N 1, N 4]), ("sequenc", N 4),
    ("serv", N 1), ("set", A [N 1, N 4, N 5, N 8, N 9]),
    ("sever", A [N 9, N 11]), ("shape", A [N 0, N 1, N 4]),
    ("shift", A [N 1, N 4, N 8, N 9]), ("should", A [N 1, N 2, N 4, N 5, N 7, N 8, N 11]),
    ("show", A [N 6, N 9]), ("show_port", A [N 1, N 4, N 5, N 8]),
    ("siboulet", N 4), ("sigma", N 11),
    ("silan", N 7), ("silica_interfac", N 4),
    ("silicainterfac", N 4), ("similar", A [N 4, N 8]),
    ("similarli", A [N 5, N 8]), ("simpl", A [N 2, N 9, N 10]),
    ("simpli", A [N 1, N 2, N 3, N 8, N 9]), ("simplifi", N 9),
    ("simul", A [N 1, N 2, N 4]), ("simultan", N 9),
    ("sinc", A [N 6, N 8, N 9]), ("singl", A [N 1, N 4, N 9]),
    ("site", A [N 2, N 4, N 7]), ("size", A [N 1, N 4, N 9]),
    ("skiff", A [N 1, N 4]), ("slab", N 4),
    ("slow", N 7), ("small", A [N 5, N 8, N 9]),
    ("smaller", A [N 1, N 2, N 4]), ("soc", A [N 1, N 4]),
    ("softwar", A [N 1, N 5]), ("solut", N 4),
    ("solv", N 5), ("solvat", N 4),
    ("solvent", N 4), ("some", A [N 5, N 6]),
    ("sort", N 4), ("sourc", A [N 0, N 1, N 4, N 11]),
    ("space", A [N 1, N 4, N 5, N 7, N 8, N 9]), ("spatial", A [N 1, N 4, N 9]),
    ("special", A [N 1, N 5]), ("specif", A [N 1, N 2, N 4, N 9]),
    ("specifi", A [N 0, N 1, N 3, N 4, N 7, N 9, N 11]), ("sphere", A [N 4, N 9]),
    ("spherelj", N 9), ("spherepattern", A [N 4, N 9]),
    ("spheric", N 7), ("spin", A [N 0, N 1, N 4, N 9]),
    ("spin_i", A []), ("spin_x", A []),
    ("spin_z", A []), ("spiral", N 4),
    ("standard", N 4), ("start", A [N 5, N 6, N 8, N 9]),
    ("statu", A [N 1, N 4]), ("steep", A [N 1, N 4]),
    ("steepest", A [N 1, N 4]), ("step", A [N 1, N 4, N 8]),
    ("stick", N 5), ("store", A [N 1, N 6, N 9]),
    ("str", A [N 1, N 4, N 11]), ("string", A [N 1, N 4, N 6]),
    ("structur", A [N 2, N 4, N 5, N 7, N 8, N 11]), ("studi", A [N 1, N 4]),
    ("style", A [N 6, N 11]), ("sub", A [N 1, N 2, N 4]),
    ("subclass", A [N 1, N 4]), ("subcompound", N 1),
    ("subsequ", N 6), ("substrat", A [N 4, N 7]),
    ("success", N 7), ("successor", A [N 1, N 4]),
    ("superclass", N 1), ("superimpos", N 7),
    ("support", A [N 1, N 4, N 9, N 11]), ("surf", N 4),
    ("surfac", A [N 2, N 4, N 7]), ("system", A [N 0, N 1, N 4, N 7, N 8, N 10, N 11]),
    ("tabl", A [N 1, N 4]), ("tag", N 1),
    ("take", A [N 1, N 4, N 5, N 6, N 8, N 9]), ("task", N 9),
    ("tell", A [N 2, N 7]), ("term", A [N 1, N 2, N 4]),
    ("test", A [N 1, N 4]), ("than", A [N 1, N 4, N 7, N 8, N 9]),
    ("thei", A [N 1, N 4, N 5, N 8, N 9]), ("them", A [N 3, N 5, N 7, N 8]),
    ("therefor", N 9), ("theta", A [N 1, N 4, N 8, N 11]),
    ("thi", A [N 0, N 1, N 2, N 4, N 5, N 6, N 7, N 8, N 9]), ("thick", N 4),
    ("those", A [N 1, N 2, N 4, N 5]), ("through", A [N 1, N 4]),
    ("thu", N 8), ("tile", N 10),
    ("tile_i", A [N 2, N 4]), ("tile_x", A [N 2, N 4]),
    ("tiled_compound", N 4), ("tiled_surfac", N 7),
    ("tiledcompound", A [N 4, N 7]), ("time", A [N 4, N 7, N 8]),
    ("titl", A [N 1, N 4]), ("to_intermol", A [N 1, N 4]),
    ("to_parm", A [N 1, N 4]), ("to_posit", A [N 0, N 5, N 8]),
    ("to_trajectori", A [N 1, N 4]), ("todo", N 4),
    ("togeth", A [N 5, N 8]), ("toggl", N 9),
    ("tool", A [N 7, N 9]), ("toolbox", A [N 1, N 4]),
    ("top", A [N 1, N 4]), ("topolog", A [N 1, N 2, N 4]),
    ("track", N 2), ("traj", A [N 1, N 4]),
    ("trajectori", A [N 1, N 4]), ("transform", A [N 1, N 10]),
    ("translat", A [N 0, N 1, N 2, N 4, N 5, N 8, N 9]), ("translate_to", A [N 0, N 1, N 4, N 9]),
    ("travers", A [N 1, N 4]), ("treat", A [N 1, N 4]),
    ("tree", A [N 1, N 4]), ("tri", N 5),
    ("tricki", N 7), ("triclin", N 4),
    ("triclinc", N 4), ("trivial", N 8),
    ("tunabl", N 2), ("tupl", A [N 1, N 4]),
    ("tutori", A [N 5, N 8, N 9]), ("tutorial_ethan", N 5),
    ("tutorial_ethane_ev", N 5), ("tutorial_methan", N 6),
    ("tutorial_methane_ev", N 6), ("tutorial_monolay", N 7),
    ("tutorial_monolayer_ev", N 7), ("tutorial_polym", N 8),
    ("tutorial_polymers_ev", N 8), ("tutorial_simple_lj", N 9),
    ("tutorial_simple_lj_ev", N 9), ("two", A [N 0, N 1, N 2, N 4, N 5, N 7, N 9]),
    ("type", A [N 1, N 3, N 4, N 5, N 11]), ("typic", A [N 5, N 6]),
    ("uff", A [N 1, N 4]), ("ultim", N 2),
    ("under", A [N 2, N 6]), ("underli", N 8),
    ("underwai", N 11), ("uniform", A [N 8, N 9]),
    ("union", N 4), ("uniqu", A [N 1, N 4]),
    ("unit", A [N 1, N 3, N 4, N 5, N 6, N 7, N 8, N 9, N 11]), ("unlabel_rigid_bodi", A [N 1, N 4]),
    ("unoccupi", A [N 1, N 4, N 7]), ("unperturb", N 8),
    ("unus", N 7), ("updat", A [N 1, N 4]),
    ("update_coordin", A [N 1, N 4]), ("update_port_loc", A [N 1, N 4]),
    ("usag", N 9), ("use", A [N 3, N 4, N 5, N 6, N 7, N 8, N 11]),
    ("used", A [N 1, N 4, N 8, N 9, N 10, N 11]), ("useful", N 5),
    ("user", A [N 1, N 2, N 4, N 8]), ("uses", A [N 3, N 7]),
    ("using", A [N 1, N 2, N 3, N 4, N 5, N 6, N 7, N 9]), ("usual", A [N 1, N 4]),
    ("util", A [N 1, N 4, N 11]), ("valid", A [N 1, N 4]),
    ("valu", A [N 1, N 4, N 8, N 9, N 11]), ("van", A [N 1, N 4]),
    ("vandermeersch", A [N 1, N 4]), ("variabl", A [N 1, N 2, N 4, N 8, N 9]),
    ("variat", N 8), ("varieti", N 11),
    ("variou", N 2), ("vector", A [N 1, N 4, N 9]),
    ("veri", N 9), ("version", A [N 1, N 4]),
    ("via", A [N 1, N 6]), ("vibrat", A [N 1, N 4]),
    ("view_hierarchi", A []), ("visual", A [N 1, N 4, N 5, N 6, N 7, N 8, N 9]),
    ("vlissid", N 1), ("vogel", N 4),
    ("waal", A [N 1, N 4]), ("wai", N 5),
    ("wang", A [N 1, N 4]), ("want", A [N 5, N 7]),
    ("warn", N 7), ("websit", N 3),
    ("were", N 4), ("weslei", N 1),
    ("what", A [N 6, N 7]), ("when", A [N 1, N 2, N 4, N 5, N 6, N 7, N 8]),
    ("where", A [N 0, N 1, N 4, N 9]), ("wherea", N 9),
    ("whether", N 1), ("which", A [N 1, N 2, N 3, N 4, N 5, N 6, N 7, N 8, N 9, N 11]),
    ("whole", A [N 1, N 2, N 4]), ("within", A [N 1, N 2, N 4]),
    ("without", A [N 3, N 7]), ("wolf", A [N 1, N 4]),
    ("work", A [N 5, N 9, N 11]), ("worri", N 2),
    ("would", A [N 5, N 9]), ("wrap", A [N 2, N 5, N 7]),
    ("write", A [N 1, N 4, N 10, N 11]), ("write_gsd", A [N 1, N 4, N 11]),
    ("write_hoomdxml", A [N 1, N 4, N 11]), ("write_lammpsdata", A [N 1, N 4, N 11]),
    ("written", A [N 1, N 4, N 11]), ("wrote", N 8),
    ("www", N 9), ("x_axis_transform", N 0),
    ("xml", A [N 1, N 4]), ("xyz0", A [N 1, N 4]),
    ("xyz1", A [N 1, N 4]), ("xyz", A [N 1, N 4, N 9]),
    ("xyz_with_port", A [N 1, N 4]), ("y_axis_transform", N 0),
    ("year", A [N 1, N 4]), ("yet", N 11),
    ("yield", A [N 1, N 4]), ("you", A [N 1, N 2, N 3, N 5, N 6, N 7, N 10]),
    ("your", A [N 1, N 4, N 5, N 7]), ("z_axis_transform", N 0),
    ("zero", A [N 1, N 6]), ("zhuravlev", N 4)
  ]

def titles : JSValue :=
  A [
    S "Coordinate transformations",
    S "Data Structure",
    S "mBuild",
    S "Installation",
    S "Recipes",
    S "Ethane: Reading from files, Ports and coordinate transforms",
    S "Methane: Atoms, Bonds and Compounds",
    S "Monolayer: Complex hierarchies, patterns, tiling and writing to files",
    S "Building a Simple Alkane",
    S "Point Particles: Basic system initialization",
    S "Tutorials",
    S "Writers"
  ]

def titleterms : JSValue :=
  O [
    ("class", A []), ("default", N 11),
    ("Using", A []), ("alkan", N 8),
    ("atom", N 6), ("basic", N 9),
    ("bond", N 6), ("build", N 8),
    ("complex", N 7), ("compound", A [N 1, N 4, N 6]),
    ("conda", N 3), ("coordin", A [N 0, N 5]),
    ("data", A [N 1, N 11]), ("defin", A []),
    ("edit", N 3), ("ethan", N 5),
    ("exampl", N 2), ("file", A [N 5, N 7, N 11]),
    ("format", N 11), ("from", A [N 3, N 5]),
    ("gener", N 11), ("gsd", N 11),
    ("hierarchi", N 7), ("hoomd", N 11),
    ("initi", N 9), ("instal", N 3),
    ("interfac", N 4), ("lammp", N 11),
    ("lattic", N 4), ("mbuild", N 2),
    ("methan", N 6), ("monolay", A [N 4, N 7]),
    ("monom", A []), ("pack", N 4),
    ("particl", N 9), ("pattern", A [N 4, N 7]),
    ("point", N 9), ("polym", N 4),
    ("polymer", A []), ("port", A [N 1, N 5]),
    ("read", N 5), ("recip", N 4),
    ("set", A []), ("silica", N 4),
    ("simpl", N 8), ("simul", N 11),
    ("sourc", N 3), ("structur", N 1),
    ("system", A [N 2, N 9]), ("test", N 3),
    ("tile", A [N 4, N 7]), ("transform", A [N 0, N 5]),
    ("tutori", N 10), ("variat", A []),
    ("version", N 3), ("write", N 7),
    ("writer", N 11), ("xml", N 11),
    ("your", N 3)
  ]

/-- The complete record passed to `Search.setIndex`, with its nine fields
in source order. -/
def searchIndex : JSValue :=
  O [("docnames", docnames), ("envversion", N 51), ("filenames", filenames),
     ("objects", objects), ("objnames", objnames), ("objtypes", objtypes),
     ("terms", terms), ("titles", titles), ("titleterms", titleterms)]

/-- `0 ≤ n < len`: the integer `n` is a valid position into a list of
length `len`. -/
def intInBounds (len : Nat) (n : Int) : Bool := 0 ≤ n && n < (len : Int)

/-- A term-index entry value is either a single document index in bounds,
or a list of document indices each in bounds. -/
def termValOk (len : Nat) : JSValue → Bool
  | .num n => intInBounds len n
  | .arr l => l.all fun v =>
      match v with
      | .num n => intInBounds len n
      | _ => false
  | _ => false

/-- A value is a bare integer or a list of integers. -/
def isIndexOrIndexList : JSValue → Bool
  | .num _ => true
  | .arr l => l.all fun v =>
      match v with
      | .num _ => true
      | _ => false
  | _ => false

/-- An object-index metadata value is a four-component tuple
`[document index, object-type code, priority, anchor]`: three integers
followed by a string. -/
def isMeta4 : JSValue → Bool
  | .arr [.num _, .num _, .num _, .str _] => true
  | _ => false

/-- The first component of an object-index metadata tuple (its destination
document index) is a valid position into a list of length `len`. -/
def metaDocInBounds (len : Nat) : JSValue → Bool
  | .arr (.num d :: _) => intInBounds len d
  | _ => false

/-- The object key corresponding to an integer type code, as JavaScript
coerces a numeric index to a property name. -/
def intKey (n : Int) : String := Nat.repr n.toNat

/-- The second component of an object-index metadata tuple (its
object-type code), converted to a key, resolves in both `types` and
`names`. -/
def typeCodeResolvable (types names : JSValue) : JSValue → Bool
  | .arr (_ :: .num t :: _) =>
      0 ≤ t && (types.lookup (intKey t)).isSome && (names.lookup (intKey t)).isSome
  | _ => false

/-- A docname/filename pair in which the filename is the docname with the
suffix ".rst" appended. -/
def pairRst : JSValue × JSValue → Bool
  | (.str d, .str f) => f == d ++ ".rst"
  | _ => false

/-- An `objnames` entry `(k, [lang, kind, label])` agrees with `types`:
`types[k]` is the string `lang ++ ":" ++ kind`. -/
def typeLabelOk (types : JSValue) : String × JSValue → Bool
  | (k, .arr (.str a :: .str b :: _)) =>
      match types.lookup k with
      | some (.str t) => t == a ++ ":" ++ b
      | _ => false
  | _ => false

/-- All metadata values of the object index, flattened across the
per-module sub-objects, in source order. -/
def objectsVals : List JSValue :=
  objects.entries.foldr (fun m acc => (m.2.entries.map Prod.snd) ++ acc) []

/-- If a boolean predicate holds of all elements of a list, it holds of
each member. -/
theorem allMem {α : Type} {p : α → Bool} :
    ∀ (l : List α), l.all p = true → ∀ x, x ∈ l → p x = true := by
  intro l h x hx
  induction l with
  | nil => cases hx
  | cons b t ih =>
    rw [List.all_cons, Bool.and_eq_true] at h
    cases hx with
    | head => exact h.1
    | tail _ hx2 => exact ih h.2 hx2

/-- The head of a list is a member of it. -/
theorem memOfHead {α : Type} {l : List α} {a : α} (h : l.head? = some a) :
    a ∈ l := by
  cases l with
  | nil => cases h
  | cons b t =>
    have hb : b = a := by simpa using h
    exact hb ▸ List.mem_cons_self b t

/-- Claim C1: every document index appearing in a term entry of the
`terms` mapping — whether given as a single integer or as a list of
integers — is at least 0 and strictly less than the length of the
`docnames` list, which is 12. -/
theorem terms_indices_in_bounds :
    docnames.elems.length = 12 ∧
    ∀ kv ∈ terms.entries, termValOk docnames.elems.length kv.2 = true :=
  ⟨rfl, allMem _ (by rfl)⟩

/-- Witness for C1 at the concrete term "1ast_monom". -/
theorem terms_indices_in_bounds_w :
    ("1ast_monom", N 8) ∈ terms.entries ∧
    termValOk docnames.elems.length (N 8) = true :=
  ⟨memOfHead rfl,
   terms_indices_in_bounds.2 ("1ast_monom", N 8) (memOfHead rfl)⟩

/-- Counterexample to C2: the record passed to `Search.setIndex` has nine
top-level fields, not exactly four. -/
theorem searchIndex_not_four_fields :
    searchIndex.keys.length = 9 ∧ ¬ searchIndex.keys.length = 4 :=
  ⟨rfl, by decide⟩

/-- Claim C2 (amended): the record passed to `Search.setIndex` has nine
top-level fields, in source order `docnames`, `envversion`, `filenames`,
`objects`, `objnames`, `objtypes`, `terms`, `titles`, `titleterms`; these
include the four described fields (document identifiers, symbol metadata,
object-type labels, term index) together with an environment version, a
filename list, an object-kind-name table, a title list and a title-term
index. -/
theorem searchIndex_nine_fields :
    searchIndex.keys =
      ["docnames", "envversion", "filenames", "objects", "objnames",
       "objtypes", "terms", "titles", "titleterms"] := rfl

/-- Counterexample to C3: the term "1ast_monom" maps to the bare integer
8, not to a list. -/
theorem term_mapped_to_scalar :
    ("1ast_monom", N 8) ∈ terms.entries ∧ (N 8).isArr = false :=
  ⟨memOfHead rfl, rfl⟩

/-- Claim C3 (amended): every term in the `terms` mapping maps either to
a list of document indices or to a single bare document index (an
integer), never to any other shape of value. -/
theorem terms_values_index_or_list :
    ∀ kv ∈ terms.entries, isIndexOrIndexList kv.2 = true :=
  allMem _ (by rfl)

/-- Witness for amended C3 at the concrete term "1ast_monom". -/
theorem terms_values_index_or_list_w :
    ("1ast_monom", N 8) ∈ terms.entries ∧ isIndexOrIndexList (N 8) = true :=
  ⟨memOfHead rfl,
   terms_values_index_or_list ("1ast_monom", N 8) (memOfHead rfl)⟩

/-- Counterexample to C4: the metadata value of the first object-index
entry (`Compound` under "mbuild.compound") has four components, not
three. -/
theorem object_meta_four_components :
    objectsVals.head? = some (A [N 1, N 0, N 1, S ""]) ∧
    ¬ (A [N 1, N 0, N 1, S ""]).elems.length = 3 :=
  ⟨rfl, by decide⟩

/-- Claim C4 (amended): for every fully-qualified symbol name in the
`objects` mapping, the associated metadata is a four-component tuple
`(destination document index, object-type code, priority, anchor)`: three
integers followed by a string anchor. -/
theorem objects_meta_shape :
    ∀ v ∈ objectsVals, isMeta4 v = true :=
  allMem _ (by rfl)

/-- Witness for amended C4 at the first metadata tuple. -/
theorem objects_meta_shape_w :
    (A [N 1, N 0, N 1, S ""]) ∈ objectsVals ∧
    isMeta4 (A [N 1, N 0, N 1, S ""]) = true :=
  ⟨memOfHead rfl, objects_meta_shape (A [N 1, N 0, N 1, S ""]) (memOfHead rfl)⟩

/-- Claim C5: every element of the `docnames` sequence is a string. -/
theorem docnames_all_strings :
    ∀ v ∈ docnames.elems, v.isStr = true :=
  allMem _ (by rfl)

/-- Witness for C5 at the first document identifier. -/
theorem docnames_all_strings_w :
    (S "coordinate_transforms") ∈ docnames.elems ∧
    (S "coordinate_transforms").isStr = true :=
  ⟨memOfHead rfl,
   docnames_all_strings (S "coordinate_transforms") (memOfHead rfl)⟩

/-- Claim C6: every object-type code in the `objtypes` mapping maps to a
single string label. -/
theorem objtypes_labels_strings :
    ∀ kv ∈ objtypes.entries, kv.2.isStr = true :=
  allMem _ (by rfl)

/-- Witness for C6 at type code "0". -/
theorem objtypes_labels_strings_w :
    ("0", S "py:class") ∈ objtypes.entries ∧ (S "py:class").isStr = true :=
  ⟨memOfHead rfl,
   objtypes_labels_strings ("0", S "py:class") (memOfHead rfl)⟩

/-- Claim C7: the destination document index stored in every object-index
metadata tuple is at least 0 and strictly less than the length of the
`docnames` list, so every jump target resolves to an existing page. -/
theorem objects_doc_index_in_bounds :
    ∀ v ∈ objectsVals, metaDocInBounds docnames.elems.length v = true :=
  allMem _ (by rfl)

/-- Witness for C7 at the first metadata tuple. -/
theorem objects_doc_index_in_bounds_w :
    (A [N 1, N 0, N 1, S ""]) ∈ objectsVals ∧
    metaDocInBounds docnames.elems.length (A [N 1, N 0, N 1, S ""]) = true :=
  ⟨memOfHead rfl,
   objects_doc_index_in_bounds (A [N 1, N 0, N 1, S ""]) (memOfHead rfl)⟩

/-- Claim C8: the `filenames` list has the same length as the `docnames`
list, and pointwise each filename is the corresponding docname with the
suffix ".rst" appended. -/
theorem filenames_match_docnames :
    filenames.elems.length = docnames.elems.length ∧
    ∀ p ∈ docnames.elems.zip filenames.elems, pairRst p = true :=
  ⟨rfl, allMem _ (by rfl)⟩

/-- Witness for C8 at the first docname/filename pair. -/
theorem filenames_match_docnames_w :
    (S "coordinate_transforms", S "coordinate_transforms.rst") ∈
      docnames.elems.zip filenames.elems ∧
    pairRst (S "coordinate_transforms", S "coordinate_transforms.rst") = true :=
  ⟨memOfHead rfl,
   filenames_match_docnames.2
     (S "coordinate_transforms", S "coordinate_transforms.rst")
     (memOfHead rfl)⟩

/-- Claim C9: `objtypes` and `objnames` have exactly the same keys, and
for every key `k` the label `objtypes[k]` is the first component of
`objnames[k]` concatenated with ":" and its second component. -/
theorem objtypes_objnames_agree :
    objtypes.keys = objnames.keys ∧
    ∀ kv ∈ objnames.entries, typeLabelOk objtypes kv = true :=
  ⟨rfl, allMem _ (by rfl)⟩

/-- Witness for C9 at key "0". -/
theorem objtypes_objnames_agree_w :
    ("0", A [S "py", S "class", S "Python class"]) ∈ objnames.entries ∧
    typeLabelOk objtypes ("0", A [S "py", S "class", S "Python class"]) = true :=
  ⟨memOfHead rfl,
   objtypes_objnames_agree.2 ("0", A [S "py", S "class", S "Python class"])
     (memOfHead rfl)⟩

/-- Claim C10: the object-type code stored in every object-index metadata
tuple (its second component), converted to a key, is present in both the
`objtypes` and `objnames` mappings. -/
theorem objects_type_codes_resolve :
    ∀ v ∈ objectsVals, typeCodeResolvable objtypes objnames v = true :=
  allMem _ (by rfl)

/-- Witness for C10 at the first metadata tuple. -/
theorem objects_type_codes_resolve_w :
    (A [N 1, N 0, N 1, S ""]) ∈ objectsVals ∧
    typeCodeResolvable objtypes objnames (A [N 1, N 0, N 1, S ""]) = true :=
  ⟨memOfHead rfl,
   objects_type_codes_resolve (A [N 1, N 0, N 1, S ""]) (memOfHead rfl)⟩
